import Mathlib

/-!
Verification of `src/transformers/models/maskformer/configuration_maskformer.py`
(the `MaskFormerConfig` class) against its natural-language specification.

The Python code is shallowly embedded: Python dictionaries become association
lists of `String × Value` (insertion-ordered, unique keys in well-formed use),
numbers become `Int` / `ℚ` (the configuration only ever stores its numeric
literals, it never computes with them, so exact rationals model the float
literals faithfully), and the fallible constructor returns `Except`.

External collaborators of this file (the `PretrainedConfig` base class,
`SwinConfig`, `DetrConfig`, `AutoConfig`) are not part of the repository
snapshot; where needed they are modelled from the specification and each such
definition carries a doc comment starting `Modelled from the spec:`.
-/

set_option autoImplicit false

namespace MaskFormer

/-- A Python value as stored inside configuration dictionaries: integers,
floats (modelled exactly as rationals, since they are only stored and
compared, never computed with), strings, booleans, `None`, lists and nested
dictionaries. -/
inductive Value where
  | int : Int → Value
  | rat : ℚ → Value
  | str : String → Value
  | bool : Bool → Value
  | vnone : Value
  | list : List Value → Value
  | dict : List (String × Value) → Value

/-- A Python dictionary with string keys: an insertion-ordered association
list. Well-formed Python dictionaries have pairwise distinct keys
(`Dict.NodupKeys`). -/
abbrev Dict := List (String × Value)

namespace Dict

/-- `d[k]` lookup: the value at the first occurrence of key `k`. -/
def lookup (d : Dict) (k : String) : Option Value :=
  match d with
  | [] => none
  | (k', v) :: rest => if k' = k then some v else lookup rest k

/-- Remove the first occurrence of key `k` (the dictionary is unchanged when
the key is absent, matching `dict.pop` which raises before mutating). -/
def eraseKey (d : Dict) (k : String) : Dict :=
  match d with
  | [] => []
  | (k', v) :: rest => if k' = k then rest else (k', v) :: eraseKey rest k

/-- Python `d.pop(k)` (no default): the popped value when present, together
with the state of the dictionary after the call. -/
def pop (d : Dict) (k : String) : Option Value × Dict :=
  (lookup d k, eraseKey d k)

/-- Python `d[k] = v`: replace the value at the first occurrence of `k` in
place, or append a new entry at the end. -/
def set (d : Dict) (k : String) (v : Value) : Dict :=
  match d with
  | [] => [(k, v)]
  | (k', v') :: rest => if k' = k then (k, v) :: rest else (k', v') :: set rest k v

/-- Keys are pairwise distinct, as in every actual Python dictionary. -/
def NodupKeys (d : Dict) : Prop :=
  (d.map Prod.fst).Nodup

instance (d : Dict) : Decidable (NodupKeys d) := by
  unfold NodupKeys; infer_instance

end Dict

/-- Rendering of a value inside a Python f-string, as in the error message
`f"Backbone {backbone_model_type} not supported, ..."`. Only the string case
is ever reached through a supported-type check on string input. -/
def Value.pyStr : Value → String
  | .str s => s
  | .int n => toString n
  | .rat q => toString q
  | .bool b => if b then "True" else "False"
  | .vnone => "None"
  | .list _ => "[...]"
  | .dict _ => "{...}"

/-- Python errors that the constructor can raise: `ValueError` with its
message, and `KeyError` (from `dict.pop` on a missing key) with the key. -/
inductive PyErr where
  | valueError : String → PyErr
  | keyError : String → PyErr
deriving DecidableEq

/-- Modelled from the spec: a sub-model configuration object ("sub-model
configuration classes" are external collaborators). It carries its declared
model type and its attribute dictionary (the object's `__dict__`). -/
structure SubConfig where
  model_type : String
  attrs : Dict

/-- Modelled from the spec: serialization of a sub-configuration to a plain
mapping — "the nested configs' own serialized mappings and a type tag": the
attribute dictionary with the `"model_type"` tag set. -/
def SubConfig.to_dict (c : SubConfig) : Dict :=
  Dict.set c.attrs "model_type" (.str c.model_type)

/-- Modelled from the spec: `SwinConfig`, the backbone sub-configuration
class (not in the snapshot); it stores the provided hyperparameters as its
attributes and declares model type `"swin"`. -/
def swinInit (kw : Dict) : SubConfig :=
  ⟨"swin", kw⟩

/-- Override each default with the caller's value when supplied, then keep
the caller's remaining entries: keyword-argument defaulting for a
configuration constructor. -/
def mergeDefaults (defaults kw : Dict) : Dict :=
  defaults.map (fun kv => (kv.1, (Dict.lookup kw kv.1).getD kv.2)) ++
    kw.filter (fun kv => (Dict.lookup defaults kv.1).isNone)

/-- Modelled from the spec: the defaults of the DETR decoder configuration
that `MaskFormerConfig.__init__` reads back (`encoder_attention_heads`,
`num_hidden_layers`). -/
def detrDefaults : Dict :=
  [("encoder_attention_heads", .int 8), ("num_hidden_layers", .int 6)]

/-- Modelled from the spec: `DetrConfig`, the decoder sub-configuration class
(not in the snapshot); it stores the provided hyperparameters, defaulting the
unset ones, and declares model type `"detr"`. -/
def detrInit (kw : Dict) : SubConfig :=
  ⟨"detr", mergeDefaults detrDefaults kw⟩

/-- The class attribute `backbones_supported = ["swin"]`
(configuration_maskformer.py line 93). -/
def backbones_supported : List String :=
  ["swin"]

/-- Modelled from the spec: `AutoConfig.for_model`, "a factory/registry for
resolving a backbone type by name"; it builds the sub-configuration of the
given declared type from the remaining keyword arguments. Only types that
passed the `backbones_supported` membership check reach it. -/
def autoConfigForModel (model_type : String) (kw : Dict) : SubConfig :=
  if model_type = "swin" then swinInit kw else ⟨model_type, kw⟩

/-- A constructed `MaskFormerConfig` object: the two owned sub-configuration
objects plus the remaining attribute dictionary (`__dict__` entries after the
two sub-configs, in the insertion order of the source). -/
structure Config where
  backbone_config : SubConfig
  detr_config : SubConfig
  attrs : Dict

/-- Modelled from the spec: the tail of `PretrainedConfig.__init__` reached
by `super().__init__(num_labels=num_labels, **kwargs)` — the base
configuration class "holding named hyperparameters"; "all other inputs are
accepted and defaulted": it stores `num_labels` and then each remaining
keyword argument as an attribute (later assignments overwrite earlier ones,
as Python `setattr` does). -/
def pretrainedInit (num_labels : Value) (kwargs : Dict) (attrs : Dict) : Dict :=
  kwargs.foldl (fun a kv => Dict.set a kv.1 kv.2) (Dict.set attrs "num_labels" num_labels)

/-- `MaskFormerConfig.__init__` (configuration_maskformer.py lines 95-150).
Parameters appear in source order; each scalar is an untyped Python value.
The result pairs the outcome (the constructed object, or the raised error)
with the final state of the caller's `backbone_config` mapping, which the
constructor mutates through `backbone_config.pop("model_type")`. -/
def init (fpn_feature_size mask_feature_size no_object_weight use_auxilary_loss : Value)
    (backbone_config : Option Dict) (detr_config : Option Dict)
    (init_std init_xavier_std dice_weight cross_entropy_weight mask_weight num_labels : Value)
    (kwargs : Dict) : Except PyErr Config × Option Dict :=
  -- resolve the backbone sub-config (lines 111-129)
  let backboneRes : Except PyErr SubConfig × Option Dict :=
    match backbone_config with
    | none =>
        -- fall back to the swin-base configuration (lines 112-122)
        (.ok (swinInit
          [("image_size", .int 384), ("in_channels", .int 3), ("patch_size", .int 4),
           ("embed_dim", .int 128),
           ("depths", .list [.int 2, .int 2, .int 18, .int 2]),
           ("num_heads", .list [.int 4, .int 8, .int 16, .int 32]),
           ("window_size", .int 12), ("drop_path_rate", .rat 0.3)]), none)
    | some d =>
        match Dict.pop d "model_type" with
        | (none, _) =>
            -- `dict.pop` with no default raises KeyError, leaving `d` unchanged
            (.error (.keyError "model_type"), some d)
        | (some backbone_model_type, d') =>
            -- `backbone_model_type not in self.backbones_supported`: Python `in`
            -- compares with `==`, so a non-string value matches no entry
            match backbone_model_type with
            | .str s =>
                if s ∈ backbones_supported then
                  (.ok (autoConfigForModel s d'), some d')
                else
                  (.error (.valueError
                    ("Backbone " ++ s ++ " not supported, please use one of " ++
                      String.intercalate "," backbones_supported)), some d')
            | v =>
                (.error (.valueError
                  ("Backbone " ++ v.pyStr ++ " not supported, please use one of " ++
                    String.intercalate "," backbones_supported)), some d')
  match backboneRes with
  | (.error e, s) => (.error e, s)
  | (.ok backbone, s) =>
      -- line 131
      let detr : SubConfig :=
        match detr_config with
        | none => detrInit []
        | some d => detrInit d
      -- lines 133-149: attribute assignments in source order
      let attrs : Dict :=
        [("fpn_feature_size", fpn_feature_size),
         ("mask_feature_size", mask_feature_size),
         ("init_std", init_std),
         ("init_xavier_std", init_xavier_std),
         ("cross_entropy_weight", cross_entropy_weight),
         ("dice_weight", dice_weight),
         ("mask_weight", mask_weight),
         ("use_auxilary_loss", use_auxilary_loss),
         ("no_object_weight", no_object_weight),
         ("num_attention_heads", (Dict.lookup detr.attrs "encoder_attention_heads").getD .vnone),
         ("num_hidden_layers", (Dict.lookup detr.attrs "num_hidden_layers").getD .vnone)]
      -- line 150: super().__init__(num_labels=num_labels, **kwargs)
      (.ok ⟨backbone, detr, pretrainedInit num_labels kwargs attrs⟩, s)

/-- The default value of each scalar parameter of `__init__`
(configuration_maskformer.py lines 97-108). -/
def scalarDefaults : Dict :=
  [("fpn_feature_size", .int 256), ("mask_feature_size", .int 256),
   ("no_object_weight", .rat 0.1), ("use_auxilary_loss", .bool false),
   ("init_std", .rat 0.02), ("init_xavier_std", .rat 1.0),
   ("dice_weight", .rat 1.0), ("cross_entropy_weight", .rat 1.0),
   ("mask_weight", .rat 20.0), ("num_labels", .int 150)]

/-- Fetch a scalar parameter from a keyword-argument mapping, falling back to
its declared default from `scalarDefaults`. -/
def paramOrDefault (d : Dict) (k : String) : Value :=
  (Dict.lookup d k).getD ((Dict.lookup scalarDefaults k).getD .vnone)

/-- The names of the declared parameters of `__init__` (everything a
`**mapping` call binds by name rather than passing through `**kwargs`). -/
def namedParams : List String :=
  ["fpn_feature_size", "mask_feature_size", "no_object_weight", "use_auxilary_loss",
   "backbone_config", "detr_config", "init_std", "init_xavier_std", "dice_weight",
   "cross_entropy_weight", "mask_weight", "num_labels"]

/-- Read an optional dictionary-valued parameter: `None` and absence both
mean unset; a dictionary value is passed through. (A non-dictionary,
non-`None` value for `backbone_config`/`detr_config` is outside the declared
`Optional[Dict]` interface and is modelled as unset.) -/
def Value.asDictOpt : Value → Option Dict
  | .dict d => some d
  | _ => none

/-- Calling `MaskFormerConfig(**d)`: each declared parameter is bound from
`d` by name (falling back to its default), and the remaining entries of `d`
form `**kwargs` in order. -/
def initKwargs (d : Dict) : Except PyErr Config × Option Dict :=
  init (paramOrDefault d "fpn_feature_size") (paramOrDefault d "mask_feature_size")
    (paramOrDefault d "no_object_weight") (paramOrDefault d "use_auxilary_loss")
    ((Dict.lookup d "backbone_config").bind Value.asDictOpt)
    ((Dict.lookup d "detr_config").bind Value.asDictOpt)
    (paramOrDefault d "init_std") (paramOrDefault d "init_xavier_std")
    (paramOrDefault d "dice_weight") (paramOrDefault d "cross_entropy_weight")
    (paramOrDefault d "mask_weight") (paramOrDefault d "num_labels")
    (d.filter (fun kv => kv.1 ∉ namedParams))

/-- `MaskFormerConfig.from_backbone_and_detr_configs`
(configuration_maskformer.py lines 152-166):
`cls(backbone_config=backbone_config.to_dict(), detr_config=detr_config.to_dict(), **kwargs)`. -/
def from_backbone_and_detr_configs (backbone_config : SubConfig) (detr_config : SubConfig)
    (kwargs : Dict) : Except PyErr Config × Option Dict :=
  initKwargs
    (Dict.set (Dict.set kwargs "backbone_config" (.dict backbone_config.to_dict))
      "detr_config" (.dict detr_config.to_dict))

/-- Attribute access on a constructed object: the two sub-configuration
attributes live in their own fields; every other attribute is read from the
remaining `__dict__` entries. -/
def Config.getAttr (c : Config) (k : String) : Option Value :=
  Dict.lookup c.attrs k

/-- `MaskFormerConfig.to_dict` (configuration_maskformer.py lines 168-179):
a deep copy of `__dict__` — the two object-valued entries first (their copied
object value is immediately overwritten and is written here as a `.vnone`
placeholder), then the scalar attributes — with `backbone_config`,
`detr_config` and `model_type` then assigned in source order. -/
def Config.to_dict (c : Config) : Dict :=
  let output : Dict :=
    ("backbone_config", Value.vnone) :: ("detr_config", Value.vnone) :: c.attrs
  let output := Dict.set output "backbone_config" (.dict c.backbone_config.to_dict)
  let output := Dict.set output "detr_config" (.dict c.detr_config.to_dict)
  Dict.set output "model_type" (.str "maskformer")

/-- Default construction `MaskFormerConfig()`: every parameter at its
declared default. -/
def initDefault : Except PyErr Config × Option Dict :=
  initKwargs []

/-! ### Basic dictionary lemmas -/

namespace Dict

theorem lookup_set_self (d : Dict) (k : String) (v : Value) :
    lookup (set d k v) k = some v := by
  induction d with
  | nil => simp [set, lookup]
  | cons kv rest ih =>
      by_cases h : kv.1 = k
      · simp [set, h, lookup]
      · simp [set, h, lookup, ih]

theorem lookup_set_ne (d : Dict) {k k' : String} (v : Value) (h : k' ≠ k) :
    lookup (set d k v) k' = lookup d k' := by
  induction d with
  | nil => simp [set, lookup, Ne.symm h]
  | cons kv rest ih =>
      by_cases hk : kv.1 = k
      · subst hk
        simp [set, lookup, Ne.symm h]
      · simp only [set, if_neg hk, lookup]
        by_cases hk' : kv.1 = k' <;> simp [hk', ih]

theorem eraseKey_set_of_lookup_none (d : Dict) (k : String) (v : Value)
    (h : lookup d k = none) : eraseKey (set d k v) k = d := by
  induction d with
  | nil => simp [set, eraseKey]
  | cons kv rest ih =>
      simp only [lookup] at h
      by_cases hk : kv.1 = k
      · simp [hk] at h
      · simp only [if_neg hk] at h
        simp [set, hk, eraseKey, ih h]

/-- A key with a successful lookup occurs among the keys. -/
theorem mem_keys_of_lookup_isSome (d : Dict) (k : String) (h : (lookup d k).isSome) :
    k ∈ d.map Prod.fst := by
  induction d with
  | nil => simp [lookup] at h
  | cons kv rest ih =>
      by_cases hk : kv.1 = k
      · simp [hk]
      · simp only [lookup, if_neg hk] at h
        simp [ih h]

theorem lookup_eraseKey_of_nodupKeys (d : Dict) (k : String) (h : NodupKeys d) :
    lookup (eraseKey d k) k = none := by
  induction d with
  | nil => simp [eraseKey, lookup]
  | cons kv rest ih =>
      simp only [NodupKeys, List.map_cons, List.nodup_cons] at h
      by_cases hk : kv.1 = k
      · subst hk
        have hrest : lookup rest kv.1 = none := by
          cases hl : lookup rest kv.1 with
          | none => rfl
          | some v => exact absurd (mem_keys_of_lookup_isSome rest kv.1 (by simp [hl])) h.1
        simpa [eraseKey] using hrest
      · simp [eraseKey, hk, lookup, ih h.2]

theorem lookup_isSome_of_mem (d : Dict) (kv : String × Value) (h : kv ∈ d) :
    (lookup d kv.1).isSome := by
  induction d with
  | nil => simp at h
  | cons kv' rest ih =>
      rcases List.mem_cons.mp h with h1 | h1
      · subst h1
        simp [lookup]
      · by_cases hk : kv'.1 = kv.1 <;> simp [lookup, hk, ih h1]

theorem set_eq_append_of_lookup_none (d : Dict) (k : String) (v : Value)
    (h : lookup d k = none) : set d k v = d ++ [(k, v)] := by
  induction d with
  | nil => simp [set]
  | cons kv rest ih =>
      simp only [lookup] at h
      by_cases hk : kv.1 = k
      · simp [hk] at h
      · simp only [if_neg hk] at h
        simp [set, hk, ih h]

theorem length_eraseKey_of_lookup_isSome (d : Dict) (k : String)
    (h : (lookup d k).isSome) : (eraseKey d k).length + 1 = d.length := by
  induction d with
  | nil => simp [lookup] at h
  | cons kv rest ih =>
      by_cases hk : kv.1 = k
      · simp [eraseKey, hk]
      · simp only [lookup, if_neg hk] at h
        simp [eraseKey, hk, ih h]

theorem eraseKey_ne_of_lookup_isSome (d : Dict) (k : String)
    (h : (lookup d k).isSome) : eraseKey d k ≠ d := by
  intro he
  have := length_eraseKey_of_lookup_isSome d k h
  rw [he] at this
  omega

/-- Folding `set` over keyword arguments none of which use key `k` leaves the
lookup of `k` unchanged (the attribute-storing loop of the base class). -/
theorem lookup_foldl_set_of_lookup_none (kw : Dict) (d : Dict) (k : String)
    (h : lookup kw k = none) :
    lookup (kw.foldl (fun a kv => set a kv.1 kv.2) d) k = lookup d k := by
  induction kw generalizing d with
  | nil => rfl
  | cons kv rest ih =>
      simp only [lookup] at h
      by_cases hk : kv.1 = k
      · simp [hk] at h
      · simp only [if_neg hk] at h
        simp only [List.foldl_cons]
        rw [ih _ h, lookup_set_ne _ _ (Ne.symm hk)]

end Dict

/-- The fixed default-constructed configuration object: the result of
`MaskFormerConfig()` in this model. -/
def cfgDefault : Config :=
  ⟨⟨"swin",
    [("image_size", .int 384), ("in_channels", .int 3), ("patch_size", .int 4),
     ("embed_dim", .int 128),
     ("depths", .list [.int 2, .int 2, .int 18, .int 2]),
     ("num_heads", .list [.int 4, .int 8, .int 16, .int 32]),
     ("window_size", .int 12), ("drop_path_rate", .rat 0.3)]⟩,
   ⟨"detr", [("encoder_attention_heads", .int 8), ("num_hidden_layers", .int 6)]⟩,
   [("fpn_feature_size", .int 256), ("mask_feature_size", .int 256),
    ("init_std", .rat 0.02), ("init_xavier_std", .rat 1.0),
    ("cross_entropy_weight", .rat 1.0), ("dice_weight", .rat 1.0),
    ("mask_weight", .rat 20.0), ("use_auxilary_loss", .bool false),
    ("no_object_weight", .rat 0.1),
    ("num_attention_heads", .int 8), ("num_hidden_layers", .int 6),
    ("num_labels", .int 150)]⟩

/-- The configuration produced by `MaskFormerConfig(num_attention_heads=999)`:
the extra keyword argument is stored by the base class after the derived
attribute assignment and overwrites it. -/
def cfgHeads999 : Config :=
  ⟨cfgDefault.backbone_config, cfgDefault.detr_config,
   [("fpn_feature_size", .int 256), ("mask_feature_size", .int 256),
    ("init_std", .rat 0.02), ("init_xavier_std", .rat 1.0),
    ("cross_entropy_weight", .rat 1.0), ("dice_weight", .rat 1.0),
    ("mask_weight", .rat 20.0), ("use_auxilary_loss", .bool false),
    ("no_object_weight", .rat 0.1),
    ("num_attention_heads", .int 999), ("num_hidden_layers", .int 6),
    ("num_labels", .int 150)]⟩

/-! ### Heap model for the aliasing behaviour of `to_dict`

`to_dict` (configuration_maskformer.py line 175) builds its result from
`copy.deepcopy(self.__dict__)` and from the nested configurations' own
serialized mappings. To state that the result shares no mutable structure
with the instance, dictionaries are placed in an explicit store of
heap-allocated dictionaries; the deep copy allocates fresh addresses. -/

/-- A heap value: an immutable Python value, or a reference to a
heap-allocated dictionary (the mutable containers of interest here). -/
inductive HVal where
  | prim : Value → HVal
  | ref : Nat → HVal

/-- A heap-allocated dictionary. -/
abbrev HDict := List (String × HVal)

/-- The store: allocated dictionaries (later entries shadowed by earlier
ones) together with the next fresh address. -/
structure Store where
  mem : List (Nat × HDict)
  next : Nat

/-- Read the dictionary at an address. -/
def Store.fetch (σ : Store) (a : Nat) : HDict :=
  (σ.mem.lookup a).getD []

/-- Overwrite the dictionary at an address: an in-place mutation of that
dictionary object. -/
def Store.write (σ : Store) (a : Nat) (d : HDict) : Store :=
  ⟨(a, d) :: σ.mem, σ.next⟩

/-- Allocate a new dictionary at the next fresh address. -/
def Store.alloc (σ : Store) (d : HDict) : Store × Nat :=
  (⟨(σ.next, d) :: σ.mem, σ.next + 1⟩, σ.next)

/-- `d[k] = v` on a heap dictionary value (first occurrence replaced in
place, else appended), as in `Dict.set`. -/
def hset (d : HDict) (k : String) (v : HVal) : HDict :=
  match d with
  | [] => [(k, v)]
  | (k', v') :: rest => if k' = k then (k, v) :: rest else (k', v') :: hset rest k v

/-- A dictionary of immutable values only. -/
def primDict (d : Dict) : HDict :=
  d.map (fun kv => (kv.1, .prim kv.2))

/-- The addresses a heap dictionary refers to directly. -/
def refsOf (d : HDict) : List Nat :=
  d.filterMap (fun kv => match kv.2 with | .ref a => some a | _ => none)

/-- `copy.deepcopy` on a dictionary's entries: immutable values are shared,
each referenced dictionary is copied into a fresh cell (the object graph of
a configuration is one level deep: the referenced dictionaries hold
immutable values only). -/
def copyEntries (σ : Store) : HDict → Store × HDict
  | [] => (σ, [])
  | (k, .prim v) :: rest =>
      let (σ', r) := copyEntries σ rest
      (σ', (k, .prim v) :: r)
  | (k, .ref a) :: rest =>
      let (σ1, a') := σ.alloc (σ.fetch a)
      let (σ2, r) := copyEntries σ1 rest
      (σ2, (k, .ref a') :: r)

/-- The serialized mapping of a sub-configuration read from the heap: its
attribute dictionary with the `"model_type"` tag set, as a fresh value
(`SubConfig.to_dict` over the heap). -/
def subToDictHeap (σ : Store) (a : Nat) (mt : String) : HDict :=
  hset (σ.fetch a) "model_type" (.prim (.str mt))

/-- `MaskFormerConfig.to_dict` over the heap (configuration_maskformer.py
lines 175-179): deep-copy the instance dictionary at `a0`, overwrite the
`backbone_config` / `detr_config` entries with freshly built serialized
mappings of the sub-configurations at `a1` / `a2` (with class model types
`bmt` / `dmt`), add the `model_type` tag, and return the address of the
resulting dictionary. -/
def to_dictHeap (σ : Store) (a0 a1 a2 : Nat) (bmt dmt : String) : Store × Nat :=
  let (σ1, entries) := copyEntries σ (σ.fetch a0)
  let (σ2, abc) := σ1.alloc (subToDictHeap σ1 a1 bmt)
  let (σ3, adc) := σ2.alloc (subToDictHeap σ2 a2 dmt)
  let out := hset (hset (hset entries "backbone_config" (.ref abc))
      "detr_config" (.ref adc)) "model_type" (.prim (.str "maskformer"))
  σ3.alloc out

/-- The heap layout of a constructed instance at `a0`: the two sub-config
object attributes (references to `a1`, `a2`) followed by the immutable scalar
attributes, the referenced dictionaries holding immutable values. -/
def InstanceLayout (σ : Store) (a0 a1 a2 : Nat) : Prop :=
  (∃ l : Dict, σ.fetch a0 =
      ("backbone_config", .ref a1) :: ("detr_config", .ref a2) :: primDict l) ∧
  a0 < σ.next ∧ a1 < σ.next ∧ a2 < σ.next

/-- A concrete store holding the default configuration laid out at
addresses 0, 1, 2 (used to instantiate the aliasing theorem). -/
def storeDefault : Store :=
  ⟨[(0, ("backbone_config", .ref 1) :: ("detr_config", .ref 2) :: primDict cfgDefault.attrs),
    (1, primDict cfgDefault.backbone_config.attrs),
    (2, primDict cfgDefault.detr_config.attrs)], 3⟩

/-! ### Theorems for the claims -/

/-! #### Shared helper lemmas -/

/-- The sub-configuration built by the registry declares the requested type. -/
theorem autoConfigForModel_model_type (t : String) (kw : Dict) :
    (autoConfigForModel t kw).model_type = t := by
  unfold autoConfigForModel
  by_cases h : t = "swin"
  · simp [h, swinInit]
  · simp [h]

/-- The decoder configuration always carries its `encoder_attention_heads`
attribute (supplied or defaulted). -/
theorem lookup_detrInit_heads (kw : Dict) :
    Dict.lookup (detrInit kw).attrs "encoder_attention_heads" =
      some ((Dict.lookup kw "encoder_attention_heads").getD (.int 8)) := rfl

/-- The decoder configuration always carries its `num_hidden_layers`
attribute (supplied or defaulted). -/
theorem lookup_detrInit_layers (kw : Dict) :
    Dict.lookup (detrInit kw).attrs "num_hidden_layers" =
      some ((Dict.lookup kw "num_hidden_layers").getD (.int 6)) := rfl

/-- Attributes not named `num_labels` and not bound by the extra keyword
arguments pass through the base-class initialisation unchanged. -/
theorem lookup_pretrainedInit_untouched (nl : Value) (kw : Dict) (attrs : Dict)
    (k : String) (hk : Dict.lookup kw k = none) (hknl : k ≠ "num_labels") :
    Dict.lookup (pretrainedInit nl kw attrs) k = Dict.lookup attrs k := by
  unfold pretrainedInit
  rw [Dict.lookup_foldl_set_of_lookup_none _ _ _ hk, Dict.lookup_set_ne _ _ hknl]

/-- Normal form of `Config.to_dict`: the two serialized sub-configurations in
front, then the scalar attributes with the `model_type` tag set. -/
theorem Config.to_dict_eq (c : Config) :
    c.to_dict = ("backbone_config", .dict c.backbone_config.to_dict) ::
      ("detr_config", .dict c.detr_config.to_dict) ::
      Dict.set c.attrs "model_type" (.str "maskformer") := rfl

/-- Shape of every successfully constructed configuration: the stored decoder
is built from the supplied (or empty) decoder mapping, the attribute
dictionary is the source-order assignment sequence fed through the base
class, and the stored backbone comes from the default path or from the
registry with a supported type. -/
theorem init_ok_shape (a1 a2 a3 a4 : Value) (bc dc : Option Dict)
    (i1 i2 dw cw mw nl : Value) (kw : Dict) (c : Config) (s : Option Dict)
    (h : init a1 a2 a3 a4 bc dc i1 i2 dw cw mw nl kw = (.ok c, s)) :
    c.detr_config = detrInit (dc.getD []) ∧
    c.attrs = pretrainedInit nl kw
      [("fpn_feature_size", a1), ("mask_feature_size", a2), ("init_std", i1),
       ("init_xavier_std", i2), ("cross_entropy_weight", cw), ("dice_weight", dw),
       ("mask_weight", mw), ("use_auxilary_loss", a4), ("no_object_weight", a3),
       ("num_attention_heads",
         (Dict.lookup (detrInit (dc.getD [])).attrs "encoder_attention_heads").getD .vnone),
       ("num_hidden_layers",
         (Dict.lookup (detrInit (dc.getD [])).attrs "num_hidden_layers").getD .vnone)] ∧
    ((∃ kwb, c.backbone_config = swinInit kwb) ∨
      (∃ t kwb, t ∈ backbones_supported ∧ c.backbone_config = autoConfigForModel t kwb)) := by
  cases bc with
  | none =>
      cases dc with
      | none =>
          simp only [init] at h
          injection h with h1 h2
          injection h1 with h1
          subst h1
          exact ⟨rfl, rfl, Or.inl ⟨_, rfl⟩⟩
      | some dkw =>
          simp only [init] at h
          injection h with h1 h2
          injection h1 with h1
          subst h1
          exact ⟨rfl, rfl, Or.inl ⟨_, rfl⟩⟩
  | some d =>
      rcases hl : Dict.lookup d "model_type" with _ | v
      · simp only [init, Dict.pop, hl] at h
        exact absurd h (by simp)
      · cases v with
        | str t =>
            by_cases ht : t ∈ backbones_supported
            · simp only [init, Dict.pop, hl, if_pos ht] at h
              cases dc with
              | none =>
                  injection h with h1 h2
                  injection h1 with h1
                  subst h1
                  exact ⟨rfl, rfl, Or.inr ⟨t, _, ht, rfl⟩⟩
              | some dkw =>
                  injection h with h1 h2
                  injection h1 with h1
                  subst h1
                  exact ⟨rfl, rfl, Or.inr ⟨t, _, ht, rfl⟩⟩
            · simp only [init, Dict.pop, hl, if_neg ht] at h
              exact absurd h (by simp)
        | int n => simp only [init, Dict.pop, hl] at h; exact absurd h (by simp)
        | rat q => simp only [init, Dict.pop, hl] at h; exact absurd h (by simp)
        | bool b => simp only [init, Dict.pop, hl] at h; exact absurd h (by simp)
        | vnone => simp only [init, Dict.pop, hl] at h; exact absurd h (by simp)
        | list vs => simp only [init, Dict.pop, hl] at h; exact absurd h (by simp)
        | dict dd => simp only [init, Dict.pop, hl] at h; exact absurd h (by simp)

/-- C3: Constructing a `MaskFormerConfig` with no arguments yields the
documented default scalar values (`fpn_feature_size = 256`,
`mask_feature_size = 256`, `no_object_weight = 0.1`,
`use_auxilary_loss = False`, `init_std = 0.02`, `init_xavier_std = 1.0`,
`dice_weight = 1.0`, `cross_entropy_weight = 1.0`, `mask_weight = 20.0`,
`num_labels = 150`) and a backbone sub-config equal to the documented
swin-base defaults (`image_size = 384`, `in_channels = 3`, `patch_size = 4`,
`embed_dim = 128`, `depths = [2, 2, 18, 2]`, `num_heads = [4, 8, 16, 32]`,
`window_size = 12`, `drop_path_rate = 0.3`). -/
theorem default_construction_yields_documented_defaults :
    initDefault = (.ok cfgDefault, none) ∧
    cfgDefault.getAttr "fpn_feature_size" = some (.int 256) ∧
    cfgDefault.getAttr "mask_feature_size" = some (.int 256) ∧
    cfgDefault.getAttr "no_object_weight" = some (.rat 0.1) ∧
    cfgDefault.getAttr "use_auxilary_loss" = some (.bool false) ∧
    cfgDefault.getAttr "init_std" = some (.rat 0.02) ∧
    cfgDefault.getAttr "init_xavier_std" = some (.rat 1.0) ∧
    cfgDefault.getAttr "dice_weight" = some (.rat 1.0) ∧
    cfgDefault.getAttr "cross_entropy_weight" = some (.rat 1.0) ∧
    cfgDefault.getAttr "mask_weight" = some (.rat 20.0) ∧
    cfgDefault.getAttr "num_labels" = some (.int 150) ∧
    cfgDefault.backbone_config.model_type = "swin" ∧
    Dict.lookup cfgDefault.backbone_config.attrs "image_size" = some (.int 384) ∧
    Dict.lookup cfgDefault.backbone_config.attrs "in_channels" = some (.int 3) ∧
    Dict.lookup cfgDefault.backbone_config.attrs "patch_size" = some (.int 4) ∧
    Dict.lookup cfgDefault.backbone_config.attrs "embed_dim" = some (.int 128) ∧
    Dict.lookup cfgDefault.backbone_config.attrs "depths" =
      some (.list [.int 2, .int 2, .int 18, .int 2]) ∧
    Dict.lookup cfgDefault.backbone_config.attrs "num_heads" =
      some (.list [.int 4, .int 8, .int 16, .int 32]) ∧
    Dict.lookup cfgDefault.backbone_config.attrs "window_size" = some (.int 12) ∧
    Dict.lookup cfgDefault.backbone_config.attrs "drop_path_rate" = some (.rat 0.3) :=
  ⟨rfl, rfl, rfl, rfl, rfl, rfl, rfl, rfl, rfl, rfl, rfl, rfl, rfl, rfl, rfl, rfl,
   rfl, rfl, rfl, rfl⟩

/-- C1: For every `backbone_config` mapping whose `"model_type"` value is not
in the supported set `["swin"]`, construction raises a `ValueError` carrying
the descriptive message, whatever the other arguments are; no configuration
object is produced. -/
theorem unsupported_backbone_raises_valueError
    (a1 a2 a3 a4 i1 i2 dw cw mw nl : Value) (dc : Option Dict) (kw : Dict)
    (d : Dict) (v : Value)
    (hv : Dict.lookup d "model_type" = some v)
    (hunsup : ∀ s ∈ backbones_supported, v ≠ .str s) :
    (init a1 a2 a3 a4 (some d) dc i1 i2 dw cw mw nl kw).1 =
      .error (.valueError
        ("Backbone " ++ v.pyStr ++ " not supported, please use one of " ++
          String.intercalate "," backbones_supported)) := by
  unfold init
  simp only [Dict.pop, hv]
  cases v with
  | str s =>
      have hs : s ∉ backbones_supported := fun hmem => (hunsup s hmem) rfl
      simp only [if_neg hs]
      rfl
  | int n => rfl
  | rat q => rfl
  | bool b => rfl
  | vnone => rfl
  | list vs => rfl
  | dict dd => rfl

/-- C1 witness: a mapping declaring `model_type = "resnet"` is rejected with
the descriptive `ValueError`. -/
theorem unsupported_backbone_raises_valueError_witness :
    (init (.int 256) (.int 256) (.rat 0.1) (.bool false)
        (some [("model_type", .str "resnet")]) none
        (.rat 0.02) (.rat 1.0) (.rat 1.0) (.rat 1.0) (.rat 20.0) (.int 150) []).1 =
      .error (.valueError "Backbone resnet not supported, please use one of swin") :=
  unsupported_backbone_raises_valueError (.int 256) (.int 256) (.rat 0.1) (.bool false)
    (.rat 0.02) (.rat 1.0) (.rat 1.0) (.rat 1.0) (.rat 20.0) (.int 150) none []
    [("model_type", .str "resnet")] (.str "resnet") rfl
    (by
      intro s hs h
      rw [show s = "swin" from by simpa [backbones_supported] using hs] at h
      exact absurd (Value.str.inj h) (by decide))

/-- C8: When a `backbone_config` mapping containing a `"model_type"` entry is
passed, the constructor removes that entry from the caller's mapping through
`pop`, whatever the outcome; the resulting mapping differs from the original,
so the caller's input is not left unchanged even when construction raises. -/
theorem init_pops_model_type_from_callers_mapping
    (a1 a2 a3 a4 i1 i2 dw cw mw nl : Value) (dc : Option Dict) (kw : Dict)
    (d : Dict) (v : Value)
    (hv : Dict.lookup d "model_type" = some v) :
    (init a1 a2 a3 a4 (some d) dc i1 i2 dw cw mw nl kw).2 =
      some (Dict.eraseKey d "model_type") ∧
    Dict.eraseKey d "model_type" ≠ d := by
  refine ⟨?_, Dict.eraseKey_ne_of_lookup_isSome d _ (by simp [hv])⟩
  unfold init
  simp only [Dict.pop, hv]
  cases v with
  | str s => by_cases hs : s ∈ backbones_supported <;> simp [hs]
  | int n => rfl
  | rat q => rfl
  | bool b => rfl
  | vnone => rfl
  | list vs => rfl
  | dict dd => rfl

/-- C8 witness: popping happens and persists on the `ValueError` path. -/
theorem init_pops_model_type_from_callers_mapping_witness :
    (init (.int 256) (.int 256) (.rat 0.1) (.bool false)
        (some [("model_type", .str "resnet"), ("image_size", .int 64)]) none
        (.rat 0.02) (.rat 1.0) (.rat 1.0) (.rat 1.0) (.rat 20.0) (.int 150) []).2 =
      some [("image_size", .int 64)] ∧
    Dict.eraseKey [("model_type", .str "resnet"), ("image_size", .int 64)] "model_type" ≠
      [("model_type", .str "resnet"), ("image_size", .int 64)] :=
  init_pops_model_type_from_callers_mapping (.int 256) (.int 256) (.rat 0.1) (.bool false)
    (.rat 0.02) (.rat 1.0) (.rat 1.0) (.rat 1.0) (.rat 20.0) (.int 150) none []
    [("model_type", .str "resnet"), ("image_size", .int 64)] (.str "resnet") rfl

end MaskFormer

namespace MaskFormer

/-- C4: For every configuration, `to_dict` contains every scalar attribute of
the instance under its own key, contains under `"backbone_config"` and
`"detr_config"` the nested configurations' own serialized mappings, and
contains a `"model_type"` entry equal to `"maskformer"`. -/
theorem to_dict_contains_fields_nested_configs_and_tag (c : Config) :
    Dict.lookup c.to_dict "backbone_config" = some (.dict c.backbone_config.to_dict) ∧
    Dict.lookup c.to_dict "detr_config" = some (.dict c.detr_config.to_dict) ∧
    Dict.lookup c.to_dict "model_type" = some (.str "maskformer") ∧
    ∀ k, k ≠ "backbone_config" → k ≠ "detr_config" → k ≠ "model_type" →
      Dict.lookup c.to_dict k = c.getAttr k := by
  refine ⟨rfl, rfl, ?_, ?_⟩
  · rw [Config.to_dict_eq]
    show Dict.lookup (Dict.set c.attrs "model_type" (.str "maskformer")) "model_type" =
      some (.str "maskformer")
    exact Dict.lookup_set_self _ _ _
  · intro k h1 h2 h3
    rw [Config.to_dict_eq]
    show Dict.lookup (("backbone_config", _) :: ("detr_config", _) ::
      Dict.set c.attrs "model_type" (.str "maskformer")) k = c.getAttr k
    simp only [Dict.lookup, if_neg (Ne.symm h1), if_neg (Ne.symm h2)]
    exact Dict.lookup_set_ne _ _ h3

/-- C4 witness: at the default configuration, the serialized mapping carries
the `fpn_feature_size` attribute unchanged. -/
theorem to_dict_contains_fields_nested_configs_and_tag_witness :
    Dict.lookup cfgDefault.to_dict "fpn_feature_size" = cfgDefault.getAttr "fpn_feature_size" :=
  (to_dict_contains_fields_nested_configs_and_tag cfgDefault).2.2.2 "fpn_feature_size"
    (by decide) (by decide) (by decide)

/-- C6: Every configuration produced by any construction path — default
construction, construction with an explicit `backbone_config` mapping, or the
`from_backbone_and_detr_configs` factory — stores a backbone whose declared
model type belongs to the fixed allowed set `["swin"]`. -/
theorem backbone_type_invariant :
    (∀ (a1 a2 a3 a4 i1 i2 dw cw mw nl : Value) (bc dc : Option Dict) (kw : Dict)
        (c : Config) (s : Option Dict),
      init a1 a2 a3 a4 bc dc i1 i2 dw cw mw nl kw = (.ok c, s) →
        c.backbone_config.model_type ∈ backbones_supported) ∧
    (∀ (b dt : SubConfig) (kw : Dict) (c : Config) (s : Option Dict),
      from_backbone_and_detr_configs b dt kw = (.ok c, s) →
        c.backbone_config.model_type ∈ backbones_supported) := by
  have main : ∀ (a1 a2 a3 a4 i1 i2 dw cw mw nl : Value) (bc dc : Option Dict) (kw : Dict)
      (c : Config) (s : Option Dict),
      init a1 a2 a3 a4 bc dc i1 i2 dw cw mw nl kw = (.ok c, s) →
        c.backbone_config.model_type ∈ backbones_supported := by
    intro a1 a2 a3 a4 i1 i2 dw cw mw nl bc dc kw c s h
    rcases (init_ok_shape a1 a2 a3 a4 bc dc i1 i2 dw cw mw nl kw c s h).2.2 with
      ⟨kwb, hb⟩ | ⟨t, kwb, ht, hb⟩
    · rw [hb]
      simp [swinInit, backbones_supported]
    · rw [hb, autoConfigForModel_model_type]
      exact ht
  exact ⟨main, fun b dt kw c s h => main _ _ _ _ _ _ _ _ _ _ _ _ _ _ _ h⟩

/-- C6 witness: the default construction satisfies the invariant. -/
theorem backbone_type_invariant_witness :
    cfgDefault.backbone_config.model_type ∈ backbones_supported :=
  backbone_type_invariant.1 (.int 256) (.int 256) (.rat 0.1) (.bool false)
    (.rat 0.02) (.rat 1.0) (.rat 1.0) (.rat 1.0) (.rat 20.0) (.int 150)
    none none [] cfgDefault none rfl

end MaskFormer

namespace MaskFormer

/-- C9 counterexample: passing the extra keyword argument
`num_attention_heads=999` succeeds, but the stored attribute is then `999`,
not the decoder's `encoder_attention_heads` (`8`): the base class stores
extra keyword arguments after the derived assignment and overwrites it. -/
theorem derived_heads_overridden_by_kwargs :
    (initKwargs [("num_attention_heads", .int 999)]).1 = .ok cfgHeads999 ∧
    cfgHeads999.getAttr "num_attention_heads" = some (.int 999) ∧
    Dict.lookup cfgHeads999.detr_config.attrs "encoder_attention_heads" = some (.int 8) ∧
    cfgHeads999.getAttr "num_attention_heads" ≠
      Dict.lookup cfgHeads999.detr_config.attrs "encoder_attention_heads" := by
  refine ⟨rfl, rfl, rfl, ?_⟩
  intro h
  rw [show cfgHeads999.getAttr "num_attention_heads" = some (.int 999) from rfl,
      show Dict.lookup cfgHeads999.detr_config.attrs "encoder_attention_heads" =
        some (.int 8) from rfl] at h
  injection h with h1
  injection h1 with h2
  exact absurd h2 (by decide)

/-- C9 (amended): after every successful construction in which the extra
keyword arguments bind neither `num_attention_heads` nor
`num_hidden_layers`, the derived attributes equal the stored decoder
configuration's `encoder_attention_heads` and `num_hidden_layers`. -/
theorem derived_attrs_follow_detr_config
    (a1 a2 a3 a4 i1 i2 dw cw mw nl : Value) (bc dc : Option Dict) (kw : Dict)
    (c : Config) (s : Option Dict)
    (hnah : Dict.lookup kw "num_attention_heads" = none)
    (hnhl : Dict.lookup kw "num_hidden_layers" = none)
    (h : init a1 a2 a3 a4 bc dc i1 i2 dw cw mw nl kw = (.ok c, s)) :
    c.getAttr "num_attention_heads" =
      Dict.lookup c.detr_config.attrs "encoder_attention_heads" ∧
    c.getAttr "num_hidden_layers" =
      Dict.lookup c.detr_config.attrs "num_hidden_layers" := by
  obtain ⟨hdetr, hattrs, -⟩ := init_ok_shape a1 a2 a3 a4 bc dc i1 i2 dw cw mw nl kw c s h
  constructor
  · have hA : Dict.lookup c.attrs "num_attention_heads" =
        some ((Dict.lookup (detrInit (dc.getD [])).attrs "encoder_attention_heads").getD
          .vnone) := by
      rw [hattrs, lookup_pretrainedInit_untouched _ _ _ _ hnah (by decide)]
      rfl
    show Dict.lookup c.attrs "num_attention_heads" =
      Dict.lookup c.detr_config.attrs "encoder_attention_heads"
    rw [hA, hdetr, lookup_detrInit_heads]
    rfl
  · have hA : Dict.lookup c.attrs "num_hidden_layers" =
        some ((Dict.lookup (detrInit (dc.getD [])).attrs "num_hidden_layers").getD
          .vnone) := by
      rw [hattrs, lookup_pretrainedInit_untouched _ _ _ _ hnhl (by decide)]
      rfl
    show Dict.lookup c.attrs "num_hidden_layers" =
      Dict.lookup c.detr_config.attrs "num_hidden_layers"
    rw [hA, hdetr, lookup_detrInit_layers]
    rfl

/-- C9 (amended) witness: the default construction has matching derived
attributes. -/
theorem derived_attrs_follow_detr_config_witness :
    cfgDefault.getAttr "num_attention_heads" =
      Dict.lookup cfgDefault.detr_config.attrs "encoder_attention_heads" :=
  (derived_attrs_follow_detr_config (.int 256) (.int 256) (.rat 0.1) (.bool false)
    (.rat 0.02) (.rat 1.0) (.rat 1.0) (.rat 1.0) (.rat 20.0) (.int 150)
    none none [] cfgDefault none rfl rfl rfl).1

/-- C5 counterexample: an unsupported backbone type string is not the only
failing input — a `backbone_config` mapping with no `"model_type"` entry at
all (so declaring no type, supported or not) also makes construction fail,
with a `KeyError` from `pop`. -/
theorem missing_model_type_key_fails :
    Dict.lookup ([] : Dict) "model_type" = none ∧
    (init (.int 256) (.int 256) (.rat 0.1) (.bool false) (some []) none
      (.rat 0.02) (.rat 1.0) (.rat 1.0) (.rat 1.0) (.rat 20.0) (.int 150) []).1 =
      .error (.keyError "model_type") :=
  ⟨rfl, rfl⟩

/-- C5 (amended): construction succeeds exactly when the backbone mapping is
absent or declares a supported model type; it fails both on an unsupported
declared type and on a mapping lacking the `"model_type"` entry. Every other
combination of arguments is accepted. -/
theorem construction_succeeds_iff
    (a1 a2 a3 a4 i1 i2 dw cw mw nl : Value) (bc dc : Option Dict) (kw : Dict) :
    (∃ c s, init a1 a2 a3 a4 bc dc i1 i2 dw cw mw nl kw = (.ok c, s)) ↔
      (bc = none ∨ ∃ d t, bc = some d ∧
        Dict.lookup d "model_type" = some (.str t) ∧ t ∈ backbones_supported) := by
  cases bc with
  | none =>
      constructor
      · intro _
        exact Or.inl rfl
      · intro _
        cases dc with
        | none => exact ⟨_, _, rfl⟩
        | some dkw => exact ⟨_, _, rfl⟩
  | some d =>
      rcases hl : Dict.lookup d "model_type" with _ | v
      · constructor
        · rintro ⟨c, s, h⟩
          simp only [init, Dict.pop, hl] at h
          exact absurd h (by simp)
        · rintro (h | ⟨d', t, hd, hlk, -⟩)
          · exact absurd h (by simp)
          · rw [Option.some.injEq] at hd
            subst hd
            rw [hl] at hlk
            exact absurd hlk (by simp)
      · cases v with
        | str t =>
            by_cases ht : t ∈ backbones_supported
            · constructor
              · intro _
                exact Or.inr ⟨d, t, rfl, hl, ht⟩
              · intro _
                cases dc with
                | none =>
                    exact ⟨_, _, by simp only [init, Dict.pop, hl, if_pos ht]; rfl⟩
                | some dkw =>
                    exact ⟨_, _, by simp only [init, Dict.pop, hl, if_pos ht]; rfl⟩
            · constructor
              · rintro ⟨c, s, h⟩
                simp only [init, Dict.pop, hl, if_neg ht] at h
                exact absurd h (by simp)
              · rintro (h | ⟨d', t', hd, hlk, ht'⟩)
                · exact absurd h (by simp)
                · rw [Option.some.injEq] at hd
                  subst hd
                  rw [hl, Option.some.injEq] at hlk
                  injection hlk with he
                  subst he
                  exact absurd ht' ht
        | int n =>
            constructor
            · rintro ⟨c, s, h⟩
              simp only [init, Dict.pop, hl] at h
              exact absurd h (by simp)
            · rintro (h | ⟨d', t', hd, hlk, -⟩)
              · exact absurd h (by simp)
              · rw [Option.some.injEq] at hd
                subst hd
                rw [hl, Option.some.injEq] at hlk
                exact absurd hlk (by simp)
        | rat q =>
            constructor
            · rintro ⟨c, s, h⟩
              simp only [init, Dict.pop, hl] at h
              exact absurd h (by simp)
            · rintro (h | ⟨d', t', hd, hlk, -⟩)
              · exact absurd h (by simp)
              · rw [Option.some.injEq] at hd
                subst hd
                rw [hl, Option.some.injEq] at hlk
                exact absurd hlk (by simp)
        | bool b =>
            constructor
            · rintro ⟨c, s, h⟩
              simp only [init, Dict.pop, hl] at h
              exact absurd h (by simp)
            · rintro (h | ⟨d', t', hd, hlk, -⟩)
              · exact absurd h (by simp)
              · rw [Option.some.injEq] at hd
                subst hd
                rw [hl, Option.some.injEq] at hlk
                exact absurd hlk (by simp)
        | vnone =>
            constructor
            · rintro ⟨c, s, h⟩
              simp only [init, Dict.pop, hl] at h
              exact absurd h (by simp)
            · rintro (h | ⟨d', t', hd, hlk, -⟩)
              · exact absurd h (by simp)
              · rw [Option.some.injEq] at hd
                subst hd
                rw [hl, Option.some.injEq] at hlk
                exact absurd hlk (by simp)
        | list vs =>
            constructor
            · rintro ⟨c, s, h⟩
              simp only [init, Dict.pop, hl] at h
              exact absurd h (by simp)
            · rintro (h | ⟨d', t', hd, hlk, -⟩)
              · exact absurd h (by simp)
              · rw [Option.some.injEq] at hd
                subst hd
                rw [hl, Option.some.injEq] at hlk
                exact absurd hlk (by simp)
        | dict dd =>
            constructor
            · rintro ⟨c, s, h⟩
              simp only [init, Dict.pop, hl] at h
              exact absurd h (by simp)
            · rintro (h | ⟨d', t', hd, hlk, -⟩)
              · exact absurd h (by simp)
              · rw [Option.some.injEq] at hd
                subst hd
                rw [hl, Option.some.injEq] at hlk
                exact absurd hlk (by simp)

/-- C5 (amended) witness: default construction succeeds. -/
theorem construction_succeeds_iff_witness :
    ∃ c s, init (.int 256) (.int 256) (.rat 0.1) (.bool false) none none
      (.rat 0.02) (.rat 1.0) (.rat 1.0) (.rat 1.0) (.rat 20.0) (.int 150) [] =
        (.ok c, s) :=
  (construction_succeeds_iff (.int 256) (.int 256) (.rat 0.1) (.bool false)
    (.rat 0.02) (.rat 1.0) (.rat 1.0) (.rat 1.0) (.rat 20.0) (.int 150)
    none none []).mpr (Or.inl rfl)

end MaskFormer

namespace MaskFormer

namespace Dict

/-- Lookup in an append skips a left part that lacks the key. -/
theorem lookup_append_left_none (d1 d2 : Dict) (k : String)
    (h : lookup d1 k = none) : lookup (d1 ++ d2) k = lookup d2 k := by
  induction d1 with
  | nil => rfl
  | cons kv rest ih =>
      simp only [lookup] at h
      by_cases hk : kv.1 = k
      · simp [hk] at h
      · simp only [if_neg hk] at h
        simp [lookup, hk, ih h]

/-- Lookup in an append stays in a left part that has the key. -/
theorem lookup_append_left_isSome (d1 d2 : Dict) (k : String)
    (h : (lookup d1 k).isSome) : lookup (d1 ++ d2) k = lookup d1 k := by
  induction d1 with
  | nil => simp [lookup] at h
  | cons kv rest ih =>
      by_cases hk : kv.1 = k
      · simp [lookup, hk]
      · simp only [lookup, if_neg hk] at h ⊢
        exact ih h

end Dict

/-- Extra keyword arguments that bind no declared parameter pass through the
`**`-binding untouched. -/
theorem filter_namedParams_eq_self (kw : Dict)
    (h : ∀ p ∈ namedParams, Dict.lookup kw p = none) :
    kw.filter (fun kv => kv.1 ∉ namedParams) = kw := by
  rw [List.filter_eq_self]
  intro kv hkv
  by_cases hp : kv.1 ∈ namedParams
  · have h1 := h kv.1 hp
    have h2 := Dict.lookup_isSome_of_mem kw kv hkv
    rw [h1] at h2
    simp at h2
  · simpa using hp

/-- A successful construction from a supplied backbone mapping with a
supported declared type, in closed form: the popped mapping feeds the
registry, the decoder is built from its mapping, and the attributes are the
source-order assignments through the base class. -/
theorem init_backbone_supported (a1 a2 a3 a4 : Value) (dc : Option Dict)
    (i1 i2 dw cw mw nl : Value) (kw : Dict) (d : Dict) (t : String)
    (hts : t ∈ backbones_supported)
    (hl : Dict.lookup d "model_type" = some (.str t)) :
    init a1 a2 a3 a4 (some d) dc i1 i2 dw cw mw nl kw =
      (.ok ⟨autoConfigForModel t (Dict.eraseKey d "model_type"), detrInit (dc.getD []),
        pretrainedInit nl kw
          [("fpn_feature_size", a1), ("mask_feature_size", a2), ("init_std", i1),
           ("init_xavier_std", i2), ("cross_entropy_weight", cw), ("dice_weight", dw),
           ("mask_weight", mw), ("use_auxilary_loss", a4), ("no_object_weight", a3),
           ("num_attention_heads",
             (Dict.lookup (detrInit (dc.getD [])).attrs "encoder_attention_heads").getD .vnone),
           ("num_hidden_layers",
             (Dict.lookup (detrInit (dc.getD [])).attrs "num_hidden_layers").getD .vnone)]⟩,
        some (Dict.eraseKey d "model_type")) := by
  cases dc with
  | none =>
      simp only [init, Dict.pop, hl, if_pos hts]
      rfl
  | some dkw =>
      simp only [init, Dict.pop, hl, if_pos hts]
      rfl

end MaskFormer

namespace MaskFormer

/-- C7: For every backbone configuration with a supported model type and
every decoder configuration, the `from_backbone_and_detr_configs` factory
computes exactly what a direct constructor call with
`backbone_config = backbone.to_dict()`, `detr_config = detr.to_dict()`, the
scalar parameters at their defaults and the same extra keyword arguments
computes — and that construction succeeds. -/
theorem factory_equals_direct_construction (b dt : SubConfig) (kw : Dict)
    (hb : b.model_type ∈ backbones_supported)
    (hkw : ∀ p ∈ namedParams, Dict.lookup kw p = none) :
    from_backbone_and_detr_configs b dt kw =
      init (.int 256) (.int 256) (.rat 0.1) (.bool false)
        (some b.to_dict) (some dt.to_dict)
        (.rat 0.02) (.rat 1.0) (.rat 1.0) (.rat 1.0) (.rat 20.0) (.int 150) kw ∧
    ∃ c, (from_backbone_and_detr_configs b dt kw).1 = .ok c := by
  have hbc : Dict.lookup kw "backbone_config" = none := hkw _ (by decide)
  have hdc : Dict.lookup kw "detr_config" = none := hkw _ (by decide)
  have hK : Dict.set (Dict.set kw "backbone_config" (.dict b.to_dict))
      "detr_config" (.dict dt.to_dict) =
      kw ++ [("backbone_config", .dict b.to_dict), ("detr_config", .dict dt.to_dict)] := by
    rw [Dict.set_eq_append_of_lookup_none _ _ _ hbc,
        Dict.set_eq_append_of_lookup_none _ _ _
          (by rw [Dict.lookup_append_left_none _ _ _ hdc]; rfl),
        List.append_assoc]
    rfl
  have hother : ∀ p : String, p ≠ "backbone_config" → p ≠ "detr_config" →
      Dict.lookup (kw ++ [("backbone_config", .dict b.to_dict),
        ("detr_config", .dict dt.to_dict)]) p = Dict.lookup kw p := by
    intro p h1 h2
    cases hlp : Dict.lookup kw p with
    | none =>
        rw [Dict.lookup_append_left_none _ _ _ hlp]
        simp [Dict.lookup, Ne.symm h1, Ne.symm h2]
    | some v =>
        rw [Dict.lookup_append_left_isSome _ _ _ (by simp [hlp]), hlp]
  have hfilter : (kw ++ [("backbone_config", Value.dict b.to_dict),
      ("detr_config", Value.dict dt.to_dict)]).filter (fun kv => kv.1 ∉ namedParams) = kw := by
    rw [List.filter_append, filter_namedParams_eq_self kw hkw]
    simp [namedParams]
  have hmain : from_backbone_and_detr_configs b dt kw =
      init (.int 256) (.int 256) (.rat 0.1) (.bool false)
        (some b.to_dict) (some dt.to_dict)
        (.rat 0.02) (.rat 1.0) (.rat 1.0) (.rat 1.0) (.rat 20.0) (.int 150) kw := by
    show initKwargs _ = _
    unfold initKwargs
    rw [hK]
    unfold paramOrDefault
    rw [hfilter,
        hother "fpn_feature_size" (by decide) (by decide),
        hother "mask_feature_size" (by decide) (by decide),
        hother "no_object_weight" (by decide) (by decide),
        hother "use_auxilary_loss" (by decide) (by decide),
        hother "init_std" (by decide) (by decide),
        hother "init_xavier_std" (by decide) (by decide),
        hother "dice_weight" (by decide) (by decide),
        hother "cross_entropy_weight" (by decide) (by decide),
        hother "mask_weight" (by decide) (by decide),
        hother "num_labels" (by decide) (by decide),
        hkw "fpn_feature_size" (by decide),
        hkw "mask_feature_size" (by decide),
        hkw "no_object_weight" (by decide),
        hkw "use_auxilary_loss" (by decide),
        hkw "init_std" (by decide),
        hkw "init_xavier_std" (by decide),
        hkw "dice_weight" (by decide),
        hkw "cross_entropy_weight" (by decide),
        hkw "mask_weight" (by decide),
        hkw "num_labels" (by decide),
        Dict.lookup_append_left_none _ _ _ hbc,
        Dict.lookup_append_left_none _ _ _ hdc]
    rfl
  refine ⟨hmain, ?_⟩
  rw [hmain, init_backbone_supported (.int 256) (.int 256) (.rat 0.1) (.bool false)
    (some dt.to_dict) (.rat 0.02) (.rat 1.0) (.rat 1.0) (.rat 1.0) (.rat 20.0) (.int 150)
    kw b.to_dict b.model_type hb (Dict.lookup_set_self _ _ _)]
  exact ⟨_, rfl⟩

end MaskFormer

namespace MaskFormer

/-- C7 witness: factory and direct construction agree on the default
sub-configurations with no extra keyword arguments. -/
theorem factory_equals_direct_construction_witness :
    from_backbone_and_detr_configs cfgDefault.backbone_config cfgDefault.detr_config [] =
      init (.int 256) (.int 256) (.rat 0.1) (.bool false)
        (some cfgDefault.backbone_config.to_dict) (some cfgDefault.detr_config.to_dict)
        (.rat 0.02) (.rat 1.0) (.rat 1.0) (.rat 1.0) (.rat 20.0) (.int 150) [] :=
  (factory_equals_direct_construction cfgDefault.backbone_config cfgDefault.detr_config []
    (by decide) (fun _ _ => rfl)).1

/-- C2: For every supported backbone type identifier and every well-formed
backbone mapping declaring that type, construction succeeds and the result
round-trips: reconstructing from the `to_dict` output succeeds and yields a
configuration with the same `to_dict` mapping. -/
theorem supported_backbone_construction_roundtrips (t : String)
    (ht : t ∈ backbones_supported) (d : Dict) (hnd : d.NodupKeys)
    (hl : Dict.lookup d "model_type" = some (.str t)) :
    ∃ cfg cfg2,
      (initKwargs [("backbone_config", .dict d)]).1 = .ok cfg ∧
      (initKwargs cfg.to_dict).1 = .ok cfg2 ∧
      cfg2.to_dict = cfg.to_dict := by
  have ht' : t = "swin" := by simpa [backbones_supported] using ht
  subst ht'
  have hbd : Dict.lookup (Dict.eraseKey d "model_type") "model_type" = none :=
    Dict.lookup_eraseKey_of_nodupKeys d _ hnd
  refine ⟨⟨⟨"swin", Dict.eraseKey d "model_type"⟩, cfgDefault.detr_config, cfgDefault.attrs⟩,
    ⟨⟨"swin", Dict.eraseKey d "model_type"⟩,
      ⟨"detr", [("encoder_attention_heads", .int 8), ("num_hidden_layers", .int 6),
        ("model_type", .str "detr")]⟩,
      cfgDefault.attrs ++ [("model_type", .str "maskformer")]⟩, ?_, ?_, ?_⟩
  · have h0 : initKwargs [("backbone_config", .dict d)] =
        init (.int 256) (.int 256) (.rat 0.1) (.bool false) (some d) none
          (.rat 0.02) (.rat 1.0) (.rat 1.0) (.rat 1.0) (.rat 20.0) (.int 150) [] := rfl
    rw [h0, init_backbone_supported (.int 256) (.int 256) (.rat 0.1) (.bool false) none
      (.rat 0.02) (.rat 1.0) (.rat 1.0) (.rat 1.0) (.rat 20.0) (.int 150) [] d "swin"
      (by decide) hl]
    rfl
  · have h2a : initKwargs
        (Config.to_dict ⟨⟨"swin", Dict.eraseKey d "model_type"⟩, cfgDefault.detr_config,
          cfgDefault.attrs⟩) =
        init (.int 256) (.int 256) (.rat 0.1) (.bool false)
          (some (Dict.set (Dict.eraseKey d "model_type") "model_type" (.str "swin")))
          (some [("encoder_attention_heads", .int 8), ("num_hidden_layers", .int 6),
            ("model_type", .str "detr")])
          (.rat 0.02) (.rat 1.0) (.rat 1.0) (.rat 1.0) (.rat 20.0) (.int 150)
          [("num_attention_heads", .int 8), ("num_hidden_layers", .int 6),
           ("model_type", .str "maskformer")] := rfl
    rw [h2a, init_backbone_supported (.int 256) (.int 256) (.rat 0.1) (.bool false)
      (some [("encoder_attention_heads", .int 8), ("num_hidden_layers", .int 6),
        ("model_type", .str "detr")])
      (.rat 0.02) (.rat 1.0) (.rat 1.0) (.rat 1.0) (.rat 20.0) (.int 150)
      [("num_attention_heads", .int 8), ("num_hidden_layers", .int 6),
       ("model_type", .str "maskformer")]
      (Dict.set (Dict.eraseKey d "model_type") "model_type" (.str "swin")) "swin"
      (by decide) (Dict.lookup_set_self _ _ _),
      Dict.eraseKey_set_of_lookup_none _ _ _ hbd]
    rfl
  · rfl

/-- C2 witness: a one-entry swin mapping round-trips. -/
theorem supported_backbone_construction_roundtrips_witness :
    ∃ cfg cfg2,
      (initKwargs [("backbone_config", .dict [("model_type", .str "swin")])]).1 = .ok cfg ∧
      (initKwargs cfg.to_dict).1 = .ok cfg2 ∧
      cfg2.to_dict = cfg.to_dict :=
  supported_backbone_construction_roundtrips "swin" (by decide)
    [("model_type", .str "swin")] (by decide) rfl

end MaskFormer

namespace MaskFormer

/-- Deep-copying a dictionary of immutable values allocates nothing and
returns it unchanged. -/
theorem copyEntries_primDict (σ : Store) (l : Dict) :
    copyEntries σ (primDict l) = (σ, primDict l) := by
  induction l with
  | nil => rfl
  | cons kv rest ih =>
      simp only [primDict, List.map_cons] at ih ⊢
      simp [copyEntries, ih]

/-- A dictionary of immutable values refers to no address. -/
theorem refsOf_primDict (l : Dict) : refsOf (primDict l) = [] := by
  induction l with
  | nil => rfl
  | cons kv rest ih =>
      simp [refsOf, primDict, List.filterMap_cons, ih]

/-- Setting an immutable value into a dictionary of immutable values leaves
it referring to no address. -/
theorem refsOf_hset_prim (l : Dict) (k : String) (v : Value) :
    refsOf (hset (primDict l) k (.prim v)) = [] := by
  induction l with
  | nil => rfl
  | cons kv rest ih =>
      simp only [primDict, List.map_cons, hset]
      by_cases hk : kv.1 = k
      · simp only [if_pos hk, refsOf, List.filterMap_cons]
        simp [refsOf_primDict rest]
      · simp only [if_neg hk, refsOf, List.filterMap_cons]
        simpa [refsOf, primDict] using ih

end MaskFormer

namespace MaskFormer

/-- The references of a dictionary starting with a reference entry. -/
theorem refsOf_cons_ref (k : String) (a : Nat) (d : HDict) :
    refsOf ((k, .ref a) :: d) = a :: refsOf d := by
  simp [refsOf, List.filterMap_cons]

/-- Closed form of `to_dictHeap` on an instance layout: two copies of the
sub-config dictionaries, the two freshly built serialized sub-mappings, and
the output dictionary are allocated at the five next fresh addresses. -/
theorem to_dictHeap_eq (σ : Store) (a0 a1 a2 : Nat) (bmt dmt : String) (l : Dict)
    (hE : σ.fetch a0 =
      ("backbone_config", .ref a1) :: ("detr_config", .ref a2) :: primDict l)
    (h1 : a1 < σ.next) (h2 : a2 < σ.next) :
    to_dictHeap σ a0 a1 a2 bmt dmt =
      (⟨(σ.next+4,
          ("backbone_config", .ref (σ.next+2)) :: ("detr_config", .ref (σ.next+3)) ::
            hset (primDict l) "model_type" (.prim (.str "maskformer"))) ::
        (σ.next+3, hset (σ.fetch a2) "model_type" (.prim (.str dmt))) ::
        (σ.next+2, hset (σ.fetch a1) "model_type" (.prim (.str bmt))) ::
        (σ.next+1, σ.fetch a2) :: (σ.next, σ.fetch a1) :: σ.mem, σ.next+5⟩,
       σ.next+4) := by
  have hb1 : (a2 == σ.next) = false := beq_eq_false_iff_ne.mpr (by omega)
  have hb2 : (a1 == σ.next) = false := beq_eq_false_iff_ne.mpr (by omega)
  have hb3 : (a1 == σ.next + 1) = false := beq_eq_false_iff_ne.mpr (by omega)
  have hb4 : (a2 == σ.next + 1) = false := beq_eq_false_iff_ne.mpr (by omega)
  have hb5 : (a2 == σ.next + 2) = false := beq_eq_false_iff_ne.mpr (by omega)
  unfold to_dictHeap subToDictHeap
  rw [hE]
  simp [copyEntries, copyEntries_primDict, Store.alloc, Store.fetch, List.lookup,
    hb1, hb2, hb3, hb4, hb5, hset]

/-- C10: `to_dict` returns a mapping independent of the instance: the
returned dictionary and every dictionary it refers to live at fresh
addresses, so overwriting any of them (mutating the returned mapping,
nested values included) leaves the instance's own dictionary and both
sub-configuration dictionaries exactly as they were before the call — which
the call itself also left unchanged. -/
theorem to_dict_returns_independent_mapping (σ : Store) (a0 a1 a2 : Nat)
    (bmt dmt : String) (l : Dict)
    (hE : σ.fetch a0 =
      ("backbone_config", .ref a1) :: ("detr_config", .ref a2) :: primDict l)
    (h0 : a0 < σ.next) (h1 : a1 < σ.next) (h2 : a2 < σ.next) :
    ∀ b, (b = (to_dictHeap σ a0 a1 a2 bmt dmt).2 ∨
        b ∈ refsOf ((to_dictHeap σ a0 a1 a2 bmt dmt).1.fetch
          (to_dictHeap σ a0 a1 a2 bmt dmt).2)) →
      ∀ nd : HDict, ∀ x, (x = a0 ∨ x = a1 ∨ x = a2) →
        ((to_dictHeap σ a0 a1 a2 bmt dmt).1.write b nd).fetch x = σ.fetch x ∧
        (to_dictHeap σ a0 a1 a2 bmt dmt).1.fetch x = σ.fetch x := by
  have e1 := to_dictHeap_eq σ a0 a1 a2 bmt dmt l hE h1 h2
  intro b hb nd x hx
  have hxlt : x < σ.next := by rcases hx with rfl | rfl | rfl <;> assumption
  have hbge : σ.next ≤ b := by
    rcases hb with hb | hb
    · rw [e1] at hb
      simp only at hb
      omega
    · rw [e1] at hb
      simp [Store.fetch, List.lookup, refsOf_cons_ref, refsOf_hset_prim] at hb
      rcases hb with rfl | rfl <;> omega
  have hx0 : (x == b) = false := beq_eq_false_iff_ne.mpr (by omega)
  have hx1 : (x == σ.next) = false := beq_eq_false_iff_ne.mpr (by omega)
  have hx2 : (x == σ.next + 1) = false := beq_eq_false_iff_ne.mpr (by omega)
  have hx3 : (x == σ.next + 2) = false := beq_eq_false_iff_ne.mpr (by omega)
  have hx4 : (x == σ.next + 3) = false := beq_eq_false_iff_ne.mpr (by omega)
  have hx5 : (x == σ.next + 4) = false := beq_eq_false_iff_ne.mpr (by omega)
  rw [e1]
  constructor
  · simp [Store.write, Store.fetch, List.lookup, hx0, hx1, hx2, hx3, hx4, hx5]
  · simp [Store.fetch, List.lookup, hx1, hx2, hx3, hx4, hx5]

/-- C10 witness: with the default configuration laid out at addresses 0, 1,
2, overwriting the dictionary returned by `to_dict` leaves the instance
dictionary unchanged. -/
theorem to_dict_returns_independent_mapping_witness :
    ((to_dictHeap storeDefault 0 1 2 "swin" "detr").1.write
        (to_dictHeap storeDefault 0 1 2 "swin" "detr").2 []).fetch 0 =
      storeDefault.fetch 0 :=
  (to_dict_returns_independent_mapping storeDefault 0 1 2 "swin" "detr"
    cfgDefault.attrs rfl (by decide) (by decide) (by decide)
    (to_dictHeap storeDefault 0 1 2 "swin" "detr").2 (Or.inl rfl) [] 0 (Or.inl rfl)).1

end MaskFormer
